import Mathlib

/-!
Verification of the character-roster builder (`build_characters.py`).

The script expands a static list of family templates into a flat list of
character records: per family a husband, a wife, the listed sons and the
listed daughters, with sequential integer identifiers, spouse/father/mother
cross-references, a derived age, and fixed per-gender birth month and day.
The result is wrapped in a document with a single `Characters` field and
serialized to JSON.

The embedding below mirrors the source: `add_character` builds one record
(the dict literal of lines 673-691), the per-family block of
`generate_characters` (lines 696-775) becomes `buildFamilyRecords`, the
outer loop becomes `processFamilies`, and the spouse backfill (lines
734-735) is the record update applied after both spouse records exist.
The mutable `next_id` counter is threaded explicitly.
-/

namespace CursusHonorum

def START_YEAR : Int := -248

def male_birth_month : Int := 3

def female_birth_month : Int := 7

/-- Template for the husband or a son: dict with keys `praenomen`,
`cognomen`, `birth`, `traits`, `wealth`, `influence`. -/
structure PersonT where
  praenomen : String
  cognomen : String
  birth : Int
  traits : List String
  wealth : Int
  influence : Int
deriving DecidableEq

/-- Template for the wife: dict with keys `nomen`, `cognomen`, `birth`,
`traits`, `wealth`, `influence` (no praenomen). -/
structure WifeT where
  nomen : String
  cognomen : String
  birth : Int
  traits : List String
  wealth : Int
  influence : Int
deriving DecidableEq

/-- Template for a daughter: dict with keys `cognomen`, `birth`, `traits`,
`wealth`, `influence` (no praenomen, no nomen). -/
structure DaughterT where
  cognomen : String
  birth : Int
  traits : List String
  wealth : Int
  influence : Int
deriving DecidableEq

/-- One family template: the dict shape of each entry of `families`. -/
structure Family where
  family : String
  branch : String
  «class» : Int
  husband : PersonT
  wife : WifeT
  sons : List PersonT
  daughters : List DaughterT
deriving DecidableEq

/-- The nested name dict (`husband_name`, `wife_name`, `son_name`,
`daughter_name` in the source): keys `Praenomen`, `Nomen`, `Cognomen`,
`Gender`; `Praenomen` is `None` for female records. -/
structure NameData where
  Praenomen : Option String
  Nomen : String
  Cognomen : String
  Gender : Int
deriving DecidableEq

/-- One output record: the dict built by `add_character` (lines 673-691). -/
structure CharacterRecord where
  ID : Nat
  RomanName : NameData
  Gender : Int
  BirthYear : Int
  BirthMonth : Int
  BirthDay : Int
  Age : Int
  IsAlive : Bool
  SpouseID : Option Nat
  FatherID : Option Nat
  MotherID : Option Nat
  SiblingID : Option Nat
  Family : String
  Class : Int
  Traits : List String
  Wealth : Int
  Influence : Int
deriving DecidableEq

/-- `add_character` (lines 669-694) minus the append and the counter
increment, which are handled by the callers below: builds the record dict
with `Age = START_YEAR - birth_year`, month/day fixed by gender, and
`SiblingID = None`. -/
def add_character (next_id : Nat) (name_data : NameData) (gender : Int)
    (birth_year : Int) (wealth : Int) (influence : Int) (family : String)
    (social_class : Int) (traits : List String)
    (spouse_id : Option Nat) (father_id : Option Nat) (mother_id : Option Nat) :
    CharacterRecord :=
  { ID := next_id
    RomanName := name_data
    Gender := gender
    BirthYear := birth_year
    BirthMonth := if gender == 0 then male_birth_month else female_birth_month
    BirthDay := if gender == 0 then 12 else 6
    Age := START_YEAR - birth_year
    IsAlive := true
    SpouseID := spouse_id
    FatherID := father_id
    MotherID := mother_id
    SiblingID := none
    Family := family
    Class := social_class
    Traits := traits
    Wealth := wealth
    Influence := influence }

/-- `husband_name` (lines 700-705): praenomen from the husband template,
nomen is the family nomen, gender 0. -/
def husband_name (f : Family) : NameData :=
  { Praenomen := some f.husband.praenomen
    Nomen := f.family
    Cognomen := f.husband.cognomen
    Gender := 0 }

/-- The husband record as first created (lines 706-715): no spouse yet. -/
def husbandRecord (next_id : Nat) (f : Family) : CharacterRecord :=
  add_character next_id (husband_name f) 0 f.husband.birth f.husband.wealth
    f.husband.influence f.family f.«class» f.husband.traits none none none

/-- `wife_name` (lines 717-722): praenomen `None`, nomen from the wife
template, gender 1. -/
def wife_name (f : Family) : NameData :=
  { Praenomen := none
    Nomen := f.wife.nomen
    Cognomen := f.wife.cognomen
    Gender := 1 }

/-- The wife record as first created (lines 723-732): no spouse yet. -/
def wifeRecord (next_id : Nat) (f : Family) : CharacterRecord :=
  add_character next_id (wife_name f) 1 f.wife.birth f.wife.wealth
    f.wife.influence f.family f.«class» f.wife.traits none none none

/-- `son_name` (lines 738-743). -/
def son_name (f : Family) (s : PersonT) : NameData :=
  { Praenomen := some s.praenomen
    Nomen := f.family
    Cognomen := s.cognomen
    Gender := 0 }

/-- One son record (lines 744-755): father and mother ids point at the
already-created husband and wife of the same family. -/
def sonRecord (next_id : Nat) (f : Family) (father_id mother_id : Nat)
    (s : PersonT) : CharacterRecord :=
  add_character next_id (son_name f s) 0 s.birth s.wealth s.influence
    f.family f.«class» s.traits none (some father_id) (some mother_id)

/-- `daughter_name` (lines 758-763): praenomen `None`, nomen taken from the
wife template's `nomen` field. -/
def daughter_name (f : Family) (d : DaughterT) : NameData :=
  { Praenomen := none
    Nomen := f.wife.nomen
    Cognomen := d.cognomen
    Gender := 1 }

/-- One daughter record (lines 764-775). -/
def daughterRecord (next_id : Nat) (f : Family) (father_id mother_id : Nat)
    (d : DaughterT) : CharacterRecord :=
  add_character next_id (daughter_name f d) 1 d.birth d.wealth d.influence
    f.family f.«class» d.traits none (some father_id) (some mother_id)

/-- The `for son in family["sons"]` loop (lines 737-755) with the counter
threaded. -/
def sonsRecords (f : Family) (father_id mother_id : Nat) :
    Nat → List PersonT → List CharacterRecord
  | _, [] => []
  | n, s :: ss =>
      sonRecord n f father_id mother_id s ::
        sonsRecords f father_id mother_id (n + 1) ss

/-- The `for daughter in family["daughters"]` loop (lines 757-775) with the
counter threaded. -/
def daughtersRecords (f : Family) (father_id mother_id : Nat) :
    Nat → List DaughterT → List CharacterRecord
  | _, [] => []
  | n, d :: ds =>
      daughterRecord n f father_id mother_id d ::
        daughtersRecords f father_id mother_id (n + 1) ds

/-- Number of records one family contributes: husband, wife, the sons, the
daughters. -/
def familySize (f : Family) : Nat :=
  2 + f.sons.length + f.daughters.length

/-- The husband record after the backfill `husband["SpouseID"] = wife["ID"]`
(line 734), applied only after both spouse records exist. -/
def husbandFinal (next_id : Nat) (f : Family) : CharacterRecord :=
  { husbandRecord next_id f with SpouseID := some (wifeRecord (next_id + 1) f).ID }

/-- The wife record after the backfill `wife["SpouseID"] = husband["ID"]`
(line 735). -/
def wifeFinal (next_id : Nat) (f : Family) : CharacterRecord :=
  { wifeRecord (next_id + 1) f with SpouseID := some (husbandRecord next_id f).ID }

/-- The body of the `for family in families` loop (lines 696-775): create
the husband, then the wife, then backfill `SpouseID` on both (lines
734-735, applied only after both records exist), then the sons and the
daughters in listed order, each child pointing at `husband["ID"]` and
`wife["ID"]`. `next_id` is the counter value on entry. -/
def buildFamilyRecords (next_id : Nat) (f : Family) : List CharacterRecord :=
  husbandFinal next_id f ::
    wifeFinal next_id f ::
    (sonsRecords f (husbandRecord next_id f).ID (wifeRecord (next_id + 1) f).ID
        (next_id + 2) f.sons ++
      daughtersRecords f (husbandRecord next_id f).ID
        (wifeRecord (next_id + 1) f).ID (next_id + 2 + f.sons.length)
        f.daughters)

/-- The outer loop of `generate_characters` over the family list, with the
`next_id` counter threaded (it starts at 1, line 667). -/
def processFamilies : Nat → List Family → List CharacterRecord
  | _, [] => []
  | next_id, f :: fs =>
      buildFamilyRecords next_id f ++
        processFamilies (next_id + familySize f) fs

/-- `generate_characters` (lines 665-784), restricted to the in-memory
record list it accumulates: the counter starts at 1. -/
def generate_characters (fams : List Family) : List CharacterRecord :=
  processFamilies 1 fams

/-- The output document (line 777): a single field `Characters` holding the
record list. -/
structure OutputDoc where
  Characters : List CharacterRecord
deriving DecidableEq

/-- The document `generate_characters` returns and serializes. -/
def build_output (fams : List Family) : OutputDoc :=
  { Characters := generate_characters fams }

/-- Total number of records contributed by a family list. -/
def sizeSum : List Family → Nat
  | [] => 0
  | f :: fs => familySize f + sizeSum fs

/-- JSON values, modelling what `json.dump` serializes: an object is an
ordered list of key/value pairs, matching Python dict insertion order. -/
inductive JValue where
  | jnull : JValue
  | jbool : Bool → JValue
  | jint : Int → JValue
  | jstr : String → JValue
  | jarr : List JValue → JValue
  | jobj : List (String × JValue) → JValue

/-- An optional integer id serializes to the id or to `null`. -/
def jsonOfOptNat : Option Nat → JValue
  | none => JValue.jnull
  | some k => JValue.jint (Int.ofNat k)

/-- An optional praenomen serializes to the string or to `null`. -/
def jsonOfOptStr : Option String → JValue
  | none => JValue.jnull
  | some p => JValue.jstr p

/-- The nested name dict in serialization order (lines 700-705 and
analogues): keys `Praenomen`, `Nomen`, `Cognomen`, `Gender`. -/
def NameData.toJson (nd : NameData) : JValue :=
  JValue.jobj
    [("Praenomen", jsonOfOptStr nd.Praenomen),
      ("Nomen", JValue.jstr nd.Nomen),
      ("Cognomen", JValue.jstr nd.Cognomen),
      ("Gender", JValue.jint nd.Gender)]

/-- One record dict in serialization order: exactly the key order of the
dict literal in `add_character` (lines 673-691). -/
def CharacterRecord.toJson (r : CharacterRecord) : JValue :=
  JValue.jobj
    [("ID", JValue.jint (Int.ofNat r.ID)),
      ("RomanName", r.RomanName.toJson),
      ("Gender", JValue.jint r.Gender),
      ("BirthYear", JValue.jint r.BirthYear),
      ("BirthMonth", JValue.jint r.BirthMonth),
      ("BirthDay", JValue.jint r.BirthDay),
      ("Age", JValue.jint r.Age),
      ("IsAlive", JValue.jbool r.IsAlive),
      ("SpouseID", jsonOfOptNat r.SpouseID),
      ("FatherID", jsonOfOptNat r.FatherID),
      ("MotherID", jsonOfOptNat r.MotherID),
      ("SiblingID", jsonOfOptNat r.SiblingID),
      ("Family", JValue.jstr r.Family),
      ("Class", JValue.jint r.Class),
      ("Traits", JValue.jarr (r.Traits.map JValue.jstr)),
      ("Wealth", JValue.jint r.Wealth),
      ("Influence", JValue.jint r.Influence)]

/-- The serialized output document (lines 777-780): one top-level key,
`Characters`, holding the record array in order. -/
def OutputDoc.toJson (d : OutputDoc) : JValue :=
  JValue.jobj [("Characters", JValue.jarr (d.Characters.map CharacterRecord.toJson))]

/-- A family template as the dict may actually arrive: the `wife` key can be
absent, which the source would hit as a `KeyError` at line 719 before any
output is written. -/
structure RawFamily where
  family : String
  branch : String
  «class» : Int
  husband : PersonT
  wife : Option WifeT
  sons : List PersonT
  daughters : List DaughterT
deriving DecidableEq

/-- A raw family together with its (present) wife template. -/
def RawFamily.withWife (f : RawFamily) (w : WifeT) : Family :=
  { family := f.family
    branch := f.branch
    «class» := f.«class»
    husband := f.husband
    wife := w
    sons := f.sons
    daughters := f.daughters }

/-- The outer loop run over raw templates: looking up a missing `wife` key
raises (`Except.error` models the uncaught `KeyError`), which aborts the
whole build; the write at lines 779-780 is only reached when every family
processed cleanly. -/
def processFamiliesChecked : Nat → List RawFamily → Except String (List CharacterRecord)
  | _, [] => Except.ok []
  | next_id, f :: fs =>
      match f.wife with
      | none => Except.error "KeyError: wife"
      | some w =>
          match processFamiliesChecked (next_id + familySize (f.withWife w)) fs with
          | Except.error e => Except.error e
          | Except.ok rest => Except.ok (buildFamilyRecords next_id (f.withWife w) ++ rest)

/-- `generate_characters` over raw templates: the output document exists
only if no family aborted the loop. -/
def generate_characters_checked (fams : List RawFamily) : Except String OutputDoc :=
  match processFamiliesChecked 1 fams with
  | Except.error e => Except.error e
  | Except.ok cs => Except.ok { Characters := cs }

/-! The 42 family templates of the source's `families` list (lines 12-643),
transcribed verbatim. -/

def fam_cornelius_scipio : Family :=
  { family := "Cornelius"
    branch := "Scipio"
    «class» := 0
    husband := { praenomen := "Publius", cognomen := "Scipio Asina", birth := -285, traits := ["Naval", "Ambitious"], wealth := 5600, influence := 8 }
    wife := { nomen := "Cornelia", cognomen := "Asina", birth := -292, traits := ["Pious", "Steadfast"], wealth := 5400, influence := 6 }
    sons := [
      { praenomen := "Gnaeus", cognomen := "Scipio", birth := -268, traits := ["Disciplined"], wealth := 900, influence := 3 },
      { praenomen := "Lucius", cognomen := "Scipio", birth := -266, traits := ["Studious"], wealth := 860, influence := 3 }]
    daughters := [
      { cognomen := "Scipio", birth := -264, traits := ["Graceful"], wealth := 820, influence := 2 },
      { cognomen := "Scipio", birth := -261, traits := ["Curious"], wealth := 790, influence := 2 }]}

def fam_aemilius_paullus : Family :=
  { family := "Aemilius"
    branch := "Paullus"
    «class» := 0
    husband := { praenomen := "Lucius", cognomen := "Paullus", birth := -284, traits := ["Diplomatic", "Prudent"], wealth := 5200, influence := 7 }
    wife := { nomen := "Aemilia", cognomen := "Paulla", birth := -288, traits := ["Cultured", "Pious"], wealth := 5000, influence := 6 }
    sons := [
      { praenomen := "Marcus", cognomen := "Paullus", birth := -270, traits := ["Analytical"], wealth := 830, influence := 3 },
      { praenomen := "Quintus", cognomen := "Paullus", birth := -268, traits := ["Bold"], wealth := 810, influence := 3 }]
    daughters := [
      { cognomen := "Paulla", birth := -265, traits := ["Loyal"], wealth := 790, influence := 2 },
      { cognomen := "Paulla", birth := -262, traits := ["Studious"], wealth := 760, influence := 2 }]}

def fam_fabius_maximus : Family :=
  { family := "Fabius"
    branch := "Maximus"
    «class» := 0
    husband := { praenomen := "Quintus", cognomen := "Maximus", birth := -289, traits := ["Strategic", "Patient"], wealth := 5500, influence := 8 }
    wife := { nomen := "Fabia", cognomen := "Maxima", birth := -293, traits := ["Resolute"], wealth := 5300, influence := 6 }
    sons := [
      { praenomen := "Marcus", cognomen := "Maximus", birth := -271, traits := ["Observant"], wealth := 880, influence := 3 },
      { praenomen := "Gaius", cognomen := "Maximus", birth := -269, traits := ["Determined"], wealth := 860, influence := 3 }]
    daughters := [
      { cognomen := "Maxima", birth := -266, traits := ["Dutiful"], wealth := 820, influence := 2 },
      { cognomen := "Maxima", birth := -263, traits := ["Cheerful"], wealth := 780, influence := 2 }]}

def fam_claudius_pulcher : Family :=
  { family := "Claudius"
    branch := "Pulcher"
    «class» := 0
    husband := { praenomen := "Appius", cognomen := "Pulcher", birth := -287, traits := ["Proud", "Charismatic"], wealth := 5450, influence := 8 }
    wife := { nomen := "Claudia", cognomen := "Pulchra", birth := -291, traits := ["Elegant", "Shrewd"], wealth := 5200, influence := 6 }
    sons := [
      { praenomen := "Publius", cognomen := "Pulcher", birth := -269, traits := ["Bold"], wealth := 850, influence := 3 },
      { praenomen := "Gaius", cognomen := "Pulcher", birth := -267, traits := ["Eloquent"], wealth := 830, influence := 3 }]
    daughters := [
      { cognomen := "Pulchra", birth := -264, traits := ["Perceptive"], wealth := 800, influence := 2 },
      { cognomen := "Pulchra", birth := -261, traits := ["Graceful"], wealth := 780, influence := 2 }]}

def fam_valerius_laevinus : Family :=
  { family := "Valerius"
    branch := "Laevinus"
    «class» := 0
    husband := { praenomen := "Marcus", cognomen := "Laevinus", birth := -288, traits := ["Naval", "Astute"], wealth := 5300, influence := 7 }
    wife := { nomen := "Valeria", cognomen := "Laevina", birth := -294, traits := ["Pragmatic", "Virtuous"], wealth := 5100, influence := 5 }
    sons := [
      { praenomen := "Publius", cognomen := "Laevinus", birth := -270, traits := ["Adventurous"], wealth := 820, influence := 3 },
      { praenomen := "Lucius", cognomen := "Laevinus", birth := -268, traits := ["Diligent"], wealth := 800, influence := 3 }]
    daughters := [
      { cognomen := "Laevina", birth := -265, traits := ["Kind"], wealth := 780, influence := 2 },
      { cognomen := "Laevina", birth := -262, traits := ["Attentive"], wealth := 760, influence := 2 }]}

def fam_julius_iulus : Family :=
  { family := "Julius"
    branch := "Iulus"
    «class» := 0
    husband := { praenomen := "Gaius", cognomen := "Iulus", birth := -286, traits := ["Charismatic", "Eloquent"], wealth := 5400, influence := 7 }
    wife := { nomen := "Julia", cognomen := "Iula", birth := -290, traits := ["Hospitable", "Graceful"], wealth := 5200, influence := 6 }
    sons := [
      { praenomen := "Sextus", cognomen := "Iulus", birth := -269, traits := ["Charming"], wealth := 840, influence := 3 },
      { praenomen := "Lucius", cognomen := "Iulus", birth := -267, traits := ["Thoughtful"], wealth := 820, influence := 3 }]
    daughters := [
      { cognomen := "Iula", birth := -264, traits := ["Cheerful"], wealth := 790, influence := 2 },
      { cognomen := "Iula", birth := -261, traits := ["Devout"], wealth := 770, influence := 2 }]}

def fam_sempronius_blesus : Family :=
  { family := "Sempronius"
    branch := "Blesus"
    «class» := 1
    husband := { praenomen := "Tiberius", cognomen := "Blesus", birth := -283, traits := ["Organized", "Patient"], wealth := 4200, influence := 6 }
    wife := { nomen := "Sempronia", cognomen := "Blesa", birth := -287, traits := ["Clever", "Supportive"], wealth := 4000, influence := 4 }
    sons := [
      { praenomen := "Publius", cognomen := "Blesus", birth := -268, traits := ["Prudent"], wealth := 700, influence := 3 },
      { praenomen := "Gaius", cognomen := "Blesus", birth := -265, traits := ["Determined"], wealth := 690, influence := 3 }]
    daughters := [
      { cognomen := "Blesa", birth := -263, traits := ["Kind"], wealth := 660, influence := 2 },
      { cognomen := "Blesa", birth := -260, traits := ["Observant"], wealth := 640, influence := 2 }]}

def fam_fulvius_flaccus : Family :=
  { family := "Fulvius"
    branch := "Flaccus"
    «class» := 1
    husband := { praenomen := "Quintus", cognomen := "Flaccus", birth := -284, traits := ["Energetic", "Diplomatic"], wealth := 4300, influence := 6 }
    wife := { nomen := "Fulvia", cognomen := "Flacca", birth := -289, traits := ["Resourceful", "Pious"], wealth := 4100, influence := 4 }
    sons := [
      { praenomen := "Marcus", cognomen := "Flaccus", birth := -269, traits := ["Ambitious"], wealth := 710, influence := 3 },
      { praenomen := "Lucius", cognomen := "Flaccus", birth := -266, traits := ["Steady"], wealth := 690, influence := 3 }]
    daughters := [
      { cognomen := "Flacca", birth := -263, traits := ["Gentle"], wealth := 660, influence := 2 },
      { cognomen := "Flacca", birth := -260, traits := ["Inquisitive"], wealth := 640, influence := 2 }]}

def fam_caecilius_metellus : Family :=
  { family := "Caecilius"
    branch := "Metellus"
    «class» := 0
    husband := { praenomen := "Lucius", cognomen := "Metellus", birth := -286, traits := ["Meticulous", "Strategic"], wealth := 5100, influence := 7 }
    wife := { nomen := "Caecilia", cognomen := "Metella", birth := -291, traits := ["Nurturing", "Wise"], wealth := 5000, influence := 5 }
    sons := [
      { praenomen := "Quintus", cognomen := "Metellus", birth := -268, traits := ["Orderly"], wealth := 800, influence := 3 },
      { praenomen := "Gaius", cognomen := "Metellus", birth := -266, traits := ["Ambitious"], wealth := 780, influence := 3 }]
    daughters := [
      { cognomen := "Metella", birth := -263, traits := ["Dutiful"], wealth := 760, influence := 2 },
      { cognomen := "Metella", birth := -260, traits := ["Curious"], wealth := 740, influence := 2 }]}

def fam_manlius_vulso : Family :=
  { family := "Manlius"
    branch := "Vulso"
    «class» := 0
    husband := { praenomen := "Aulus", cognomen := "Vulso", birth := -287, traits := ["Resolute", "Innovative"], wealth := 5000, influence := 7 }
    wife := { nomen := "Manlia", cognomen := "Vulsa", birth := -292, traits := ["Patient", "Wise"], wealth := 4800, influence := 5 }
    sons := [
      { praenomen := "Gnaeus", cognomen := "Vulso", birth := -269, traits := ["Determined"], wealth := 780, influence := 3 },
      { praenomen := "Lucius", cognomen := "Vulso", birth := -267, traits := ["Analytical"], wealth := 760, influence := 3 }]
    daughters := [
      { cognomen := "Vulsa", birth := -264, traits := ["Calm"], wealth := 740, influence := 2 },
      { cognomen := "Vulsa", birth := -261, traits := ["Lively"], wealth := 720, influence := 2 }]}

def fam_sergius_silus : Family :=
  { family := "Sergius"
    branch := "Silus"
    «class» := 1
    husband := { praenomen := "Lucius", cognomen := "Silus", birth := -285, traits := ["Brave", "Steadfast"], wealth := 3800, influence := 5 }
    wife := { nomen := "Sergia", cognomen := "Sila", birth := -289, traits := ["Caring", "Pious"], wealth := 3600, influence := 4 }
    sons := [
      { praenomen := "Gaius", cognomen := "Silus", birth := -268, traits := ["Bold"], wealth := 650, influence := 3 },
      { praenomen := "Marcus", cognomen := "Silus", birth := -265, traits := ["Thoughtful"], wealth := 630, influence := 3 }]
    daughters := [
      { cognomen := "Sila", birth := -262, traits := ["Gentle"], wealth := 610, influence := 2 },
      { cognomen := "Sila", birth := -259, traits := ["Perceptive"], wealth := 600, influence := 2 }]}

def fam_sulpicius_galba : Family :=
  { family := "Sulpicius"
    branch := "Galba"
    «class» := 1
    husband := { praenomen := "Servius", cognomen := "Galba", birth := -284, traits := ["Calculating", "Eloquent"], wealth := 3900, influence := 5 }
    wife := { nomen := "Sulpicia", cognomen := "Galba", birth := -288, traits := ["Devout", "Insightful"], wealth := 3700, influence := 4 }
    sons := [
      { praenomen := "Lucius", cognomen := "Galba", birth := -269, traits := ["Persuasive"], wealth := 660, influence := 3 },
      { praenomen := "Gaius", cognomen := "Galba", birth := -266, traits := ["Strategic"], wealth := 640, influence := 3 }]
    daughters := [
      { cognomen := "Galba", birth := -263, traits := ["Observant"], wealth := 620, influence := 2 },
      { cognomen := "Galba", birth := -260, traits := ["Helpful"], wealth := 600, influence := 2 }]}

def fam_postumius_albinus : Family :=
  { family := "Postumius"
    branch := "Albinus"
    «class» := 0
    husband := { praenomen := "Aulus", cognomen := "Albinus", birth := -286, traits := ["Dutiful", "Firm"], wealth := 5000, influence := 6 }
    wife := { nomen := "Postumia", cognomen := "Albina", birth := -290, traits := ["Generous", "Pious"], wealth := 4800, influence := 5 }
    sons := [
      { praenomen := "Spurius", cognomen := "Albinus", birth := -269, traits := ["Composed"], wealth := 780, influence := 3 },
      { praenomen := "Aulus", cognomen := "Albinus", birth := -266, traits := ["Determined"], wealth := 760, influence := 3 }]
    daughters := [
      { cognomen := "Albina", birth := -263, traits := ["Graceful"], wealth := 740, influence := 2 },
      { cognomen := "Albina", birth := -260, traits := ["Curious"], wealth := 720, influence := 2 }]}

def fam_papirius_cursor : Family :=
  { family := "Papirius"
    branch := "Cursor"
    «class» := 0
    husband := { praenomen := "Lucius", cognomen := "Cursor", birth := -288, traits := ["Disciplined", "Energetic"], wealth := 5200, influence := 7 }
    wife := { nomen := "Papiria", cognomen := "Cursa", birth := -292, traits := ["Supportive", "Stoic"], wealth := 5000, influence := 5 }
    sons := [
      { praenomen := "Gaius", cognomen := "Cursor", birth := -270, traits := ["Energetic"], wealth := 800, influence := 3 },
      { praenomen := "Marcus", cognomen := "Cursor", birth := -267, traits := ["Disciplined"], wealth := 780, influence := 3 }]
    daughters := [
      { cognomen := "Cursa", birth := -264, traits := ["Pious"], wealth := 760, influence := 2 },
      { cognomen := "Cursa", birth := -261, traits := ["Observant"], wealth := 740, influence := 2 }]}

def fam_calpurnius_piso : Family :=
  { family := "Calpurnius"
    branch := "Piso"
    «class» := 1
    husband := { praenomen := "Gaius", cognomen := "Piso", birth := -283, traits := ["Calculating", "Prudent"], wealth := 4100, influence := 5 }
    wife := { nomen := "Calpurnia", cognomen := "Piso", birth := -287, traits := ["Patient", "Cultured"], wealth := 3950, influence := 4 }
    sons := [
      { praenomen := "Lucius", cognomen := "Piso", birth := -268, traits := ["Studious"], wealth := 680, influence := 3 },
      { praenomen := "Marcus", cognomen := "Piso", birth := -265, traits := ["Diligent"], wealth := 660, influence := 3 }]
    daughters := [
      { cognomen := "Piso", birth := -262, traits := ["Gentle"], wealth := 640, influence := 2 },
      { cognomen := "Piso", birth := -259, traits := ["Insightful"], wealth := 620, influence := 2 }]}

def fam_marcius_rutilus : Family :=
  { family := "Marcius"
    branch := "Rutilus"
    «class» := 1
    husband := { praenomen := "Gnaeus", cognomen := "Rutilus", birth := -284, traits := ["Stout", "Loyal"], wealth := 3900, influence := 5 }
    wife := { nomen := "Marcia", cognomen := "Rutila", birth := -288, traits := ["Kind", "Resolute"], wealth := 3700, influence := 4 }
    sons := [
      { praenomen := "Quintus", cognomen := "Rutilus", birth := -268, traits := ["Observant"], wealth := 650, influence := 3 },
      { praenomen := "Titus", cognomen := "Rutilus", birth := -265, traits := ["Energetic"], wealth := 630, influence := 3 }]
    daughters := [
      { cognomen := "Rutila", birth := -262, traits := ["Cheerful"], wealth := 610, influence := 2 },
      { cognomen := "Rutila", birth := -259, traits := ["Patient"], wealth := 600, influence := 2 }]}

def fam_livius_salinator : Family :=
  { family := "Livius"
    branch := "Salinator"
    «class» := 1
    husband := { praenomen := "Marcus", cognomen := "Salinator", birth := -285, traits := ["Tenacious", "Calculating"], wealth := 4000, influence := 6 }
    wife := { nomen := "Livia", cognomen := "Salinatrix", birth := -289, traits := ["Vigilant", "Pious"], wealth := 3800, influence := 4 }
    sons := [
      { praenomen := "Gaius", cognomen := "Salinator", birth := -268, traits := ["Determined"], wealth := 670, influence := 3 },
      { praenomen := "Marcus", cognomen := "Salinator", birth := -265, traits := ["Studious"], wealth := 650, influence := 3 }]
    daughters := [
      { cognomen := "Salinatrix", birth := -262, traits := ["Graceful"], wealth := 630, influence := 2 },
      { cognomen := "Salinatrix", birth := -259, traits := ["Attentive"], wealth := 610, influence := 2 }]}

def fam_licinius_crassus : Family :=
  { family := "Licinius"
    branch := "Crassus"
    «class» := 1
    husband := { praenomen := "Publius", cognomen := "Crassus", birth := -283, traits := ["Shrewd", "Ambitious"], wealth := 4200, influence := 6 }
    wife := { nomen := "Licinia", cognomen := "Crassa", birth := -287, traits := ["Supportive", "Insightful"], wealth := 4050, influence := 4 }
    sons := [
      { praenomen := "Marcus", cognomen := "Crassus", birth := -268, traits := ["Calculating"], wealth := 690, influence := 3 },
      { praenomen := "Gaius", cognomen := "Crassus", birth := -265, traits := ["Confident"], wealth := 670, influence := 3 }]
    daughters := [
      { cognomen := "Crassa", birth := -262, traits := ["Poised"], wealth := 650, influence := 2 },
      { cognomen := "Crassa", birth := -259, traits := ["Clever"], wealth := 630, influence := 2 }]}

def fam_antonius_merenda : Family :=
  { family := "Antonius"
    branch := "Merenda"
    «class» := 2
    husband := { praenomen := "Marcus", cognomen := "Merenda", birth := -282, traits := ["Industrious", "Assertive"], wealth := 3000, influence := 4 }
    wife := { nomen := "Antonia", cognomen := "Merenda", birth := -286, traits := ["Patient", "Practical"], wealth := 2800, influence := 3 }
    sons := [
      { praenomen := "Gaius", cognomen := "Merenda", birth := -267, traits := ["Earnest"], wealth := 520, influence := 2 },
      { praenomen := "Lucius", cognomen := "Merenda", birth := -264, traits := ["Thoughtful"], wealth := 500, influence := 2 }]
    daughters := [
      { cognomen := "Merenda", birth := -262, traits := ["Helpful"], wealth := 480, influence := 1 },
      { cognomen := "Merenda", birth := -259, traits := ["Cheerful"], wealth := 460, influence := 1 }]}

def fam_plautius_hypsaeus : Family :=
  { family := "Plautius"
    branch := "Hypsaeus"
    «class» := 1
    husband := { praenomen := "Gaius", cognomen := "Hypsaeus", birth := -284, traits := ["Decisive", "Charismatic"], wealth := 3600, influence := 5 }
    wife := { nomen := "Plautia", cognomen := "Hypsaea", birth := -288, traits := ["Diplomatic", "Pious"], wealth := 3400, influence := 4 }
    sons := [
      { praenomen := "Marcus", cognomen := "Hypsaeus", birth := -268, traits := ["Confident"], wealth := 610, influence := 3 },
      { praenomen := "Publius", cognomen := "Hypsaeus", birth := -265, traits := ["Alert"], wealth := 590, influence := 3 }]
    daughters := [
      { cognomen := "Hypsaea", birth := -262, traits := ["Calm"], wealth := 570, influence := 2 },
      { cognomen := "Hypsaea", birth := -259, traits := ["Kind"], wealth := 550, influence := 2 }]}

def fam_mucius_scaevola : Family :=
  { family := "Mucius"
    branch := "Scaevola"
    «class» := 0
    husband := { praenomen := "Publius", cognomen := "Scaevola", birth := -287, traits := ["Judicious", "Calm"], wealth := 5200, influence := 7 }
    wife := { nomen := "Mucia", cognomen := "Scaevola", birth := -291, traits := ["Pious", "Perceptive"], wealth := 5000, influence := 5 }
    sons := [
      { praenomen := "Quintus", cognomen := "Scaevola", birth := -268, traits := ["Meticulous"], wealth := 820, influence := 3 },
      { praenomen := "Lucius", cognomen := "Scaevola", birth := -265, traits := ["Insightful"], wealth := 800, influence := 3 }]
    daughters := [
      { cognomen := "Scaevola", birth := -262, traits := ["Gentle"], wealth := 780, influence := 2 },
      { cognomen := "Scaevola", birth := -259, traits := ["Cautious"], wealth := 760, influence := 2 }]}

def fam_tullius_rufus : Family :=
  { family := "Tullius"
    branch := "Rufus"
    «class» := 2
    husband := { praenomen := "Marcus", cognomen := "Rufus", birth := -282, traits := ["Diligent", "Pragmatic"], wealth := 3100, influence := 4 }
    wife := { nomen := "Tullia", cognomen := "Rufa", birth := -286, traits := ["Cheerful", "Kind"], wealth := 2900, influence := 3 }
    sons := [
      { praenomen := "Lucius", cognomen := "Rufus", birth := -267, traits := ["Studious"], wealth := 520, influence := 2 },
      { praenomen := "Publius", cognomen := "Rufus", birth := -264, traits := ["Calm"], wealth := 500, influence := 2 }]
    daughters := [
      { cognomen := "Rufa", birth := -262, traits := ["Helpful"], wealth := 480, influence := 1 },
      { cognomen := "Rufa", birth := -259, traits := ["Curious"], wealth := 460, influence := 1 }]}

def fam_hostilius_mancinus : Family :=
  { family := "Hostilius"
    branch := "Mancinus"
    «class» := 1
    husband := { praenomen := "Aulus", cognomen := "Mancinus", birth := -284, traits := ["Courageous", "Determined"], wealth := 3600, influence := 5 }
    wife := { nomen := "Hostilia", cognomen := "Mancina", birth := -288, traits := ["Steadfast", "Pious"], wealth := 3400, influence := 4 }
    sons := [
      { praenomen := "Lucius", cognomen := "Mancinus", birth := -268, traits := ["Brave"], wealth := 600, influence := 3 },
      { praenomen := "Quintus", cognomen := "Mancinus", birth := -265, traits := ["Thoughtful"], wealth := 580, influence := 3 }]
    daughters := [
      { cognomen := "Mancina", birth := -262, traits := ["Loyal"], wealth := 560, influence := 2 },
      { cognomen := "Mancina", birth := -259, traits := ["Kind"], wealth := 540, influence := 2 }]}

def fam_furius_camillus : Family :=
  { family := "Furius"
    branch := "Camillus"
    «class» := 0
    husband := { praenomen := "Lucius", cognomen := "Camillus", birth := -287, traits := ["Strategic", "Calm"], wealth := 5100, influence := 7 }
    wife := { nomen := "Furia", cognomen := "Camilla", birth := -292, traits := ["Wise", "Kind"], wealth := 4900, influence := 5 }
    sons := [
      { praenomen := "Marcus", cognomen := "Camillus", birth := -268, traits := ["Courageous"], wealth := 820, influence := 3 },
      { praenomen := "Gaius", cognomen := "Camillus", birth := -266, traits := ["Studious"], wealth := 800, influence := 3 }]
    daughters := [
      { cognomen := "Camilla", birth := -263, traits := ["Gentle"], wealth := 780, influence := 2 },
      { cognomen := "Camilla", birth := -260, traits := ["Curious"], wealth := 760, influence := 2 }]}

def fam_atilius_calatinus : Family :=
  { family := "Atilius"
    branch := "Calatinus"
    «class» := 1
    husband := { praenomen := "Gaius", cognomen := "Calatinus", birth := -285, traits := ["Vigorous", "Resolute"], wealth := 3800, influence := 5 }
    wife := { nomen := "Atilia", cognomen := "Calatina", birth := -289, traits := ["Patient", "Pious"], wealth := 3600, influence := 4 }
    sons := [
      { praenomen := "Marcus", cognomen := "Calatinus", birth := -268, traits := ["Determined"], wealth := 620, influence := 3 },
      { praenomen := "Lucius", cognomen := "Calatinus", birth := -265, traits := ["Prudent"], wealth := 600, influence := 3 }]
    daughters := [
      { cognomen := "Calatina", birth := -262, traits := ["Caring"], wealth := 580, influence := 2 },
      { cognomen := "Calatina", birth := -259, traits := ["Cheerful"], wealth := 560, influence := 2 }]}

def fam_ogulnius_gallus : Family :=
  { family := "Ogulnius"
    branch := "Gallus"
    «class» := 2
    husband := { praenomen := "Quintus", cognomen := "Gallus", birth := -283, traits := ["Insightful", "Patient"], wealth := 3200, influence := 4 }
    wife := { nomen := "Ogulnia", cognomen := "Galla", birth := -287, traits := ["Gentle", "Devout"], wealth := 3000, influence := 3 }
    sons := [
      { praenomen := "Lucius", cognomen := "Gallus", birth := -267, traits := ["Studious"], wealth := 540, influence := 2 },
      { praenomen := "Marcus", cognomen := "Gallus", birth := -264, traits := ["Bold"], wealth := 520, influence := 2 }]
    daughters := [
      { cognomen := "Galla", birth := -261, traits := ["Kind"], wealth := 500, influence := 1 },
      { cognomen := "Galla", birth := -258, traits := ["Curious"], wealth := 480, influence := 1 }]}

def fam_minucius_thermus : Family :=
  { family := "Minucius"
    branch := "Thermus"
    «class» := 1
    husband := { praenomen := "Quintus", cognomen := "Thermus", birth := -284, traits := ["Alert", "Resourceful"], wealth := 3700, influence := 5 }
    wife := { nomen := "Minucia", cognomen := "Therma", birth := -288, traits := ["Patient", "Organized"], wealth := 3500, influence := 4 }
    sons := [
      { praenomen := "Lucius", cognomen := "Thermus", birth := -268, traits := ["Inventive"], wealth := 600, influence := 3 },
      { praenomen := "Publius", cognomen := "Thermus", birth := -265, traits := ["Calm"], wealth := 580, influence := 3 }]
    daughters := [
      { cognomen := "Therma", birth := -262, traits := ["Kind"], wealth := 560, influence := 2 },
      { cognomen := "Therma", birth := -259, traits := ["Observant"], wealth := 540, influence := 2 }]}

def fam_quinctilius_varus : Family :=
  { family := "Quinctilius"
    branch := "Varus"
    «class» := 1
    husband := { praenomen := "Titus", cognomen := "Varus", birth := -283, traits := ["Prudent", "Resolute"], wealth := 3600, influence := 5 }
    wife := { nomen := "Quinctilia", cognomen := "Vara", birth := -287, traits := ["Gentle", "Perceptive"], wealth := 3400, influence := 4 }
    sons := [
      { praenomen := "Lucius", cognomen := "Varus", birth := -267, traits := ["Diligent"], wealth := 590, influence := 3 },
      { praenomen := "Quintus", cognomen := "Varus", birth := -264, traits := ["Calm"], wealth := 570, influence := 3 }]
    daughters := [
      { cognomen := "Vara", birth := -261, traits := ["Caring"], wealth := 550, influence := 2 },
      { cognomen := "Vara", birth := -258, traits := ["Curious"], wealth := 530, influence := 2 }]}

def fam_cornelius_lentulus : Family :=
  { family := "Cornelius"
    branch := "Lentulus"
    «class» := 0
    husband := { praenomen := "Lucius", cognomen := "Lentulus", birth := -286, traits := ["Shrewd", "Charismatic"], wealth := 5400, influence := 7 }
    wife := { nomen := "Cornelia", cognomen := "Lentula", birth := -290, traits := ["Diplomatic", "Pious"], wealth := 5200, influence := 6 }
    sons := [
      { praenomen := "Publius", cognomen := "Lentulus", birth := -269, traits := ["Astute"], wealth := 840, influence := 3 },
      { praenomen := "Gnaeus", cognomen := "Lentulus", birth := -266, traits := ["Confident"], wealth := 820, influence := 3 }]
    daughters := [
      { cognomen := "Lentula", birth := -263, traits := ["Cultured"], wealth := 800, influence := 2 },
      { cognomen := "Lentula", birth := -260, traits := ["Cheerful"], wealth := 780, influence := 2 }]}

def fam_aemilius_barbula : Family :=
  { family := "Aemilius"
    branch := "Barbula"
    «class» := 0
    husband := { praenomen := "Marcus", cognomen := "Barbula", birth := -287, traits := ["Resolute", "Strategic"], wealth := 5300, influence := 7 }
    wife := { nomen := "Aemilia", cognomen := "Barbula", birth := -292, traits := ["Kind", "Wise"], wealth := 5100, influence := 5 }
    sons := [
      { praenomen := "Lucius", cognomen := "Barbula", birth := -268, traits := ["Diligent"], wealth := 830, influence := 3 },
      { praenomen := "Marcus", cognomen := "Barbula", birth := -265, traits := ["Bold"], wealth := 810, influence := 3 }]
    daughters := [
      { cognomen := "Barbula", birth := -262, traits := ["Gentle"], wealth := 790, influence := 2 },
      { cognomen := "Barbula", birth := -259, traits := ["Perceptive"], wealth := 770, influence := 2 }]}

def fam_fabia_picta : Family :=
  { family := "Fabia"
    branch := "Picta"
    «class» := 0
    husband := { praenomen := "Gaius", cognomen := "Pictor", birth := -288, traits := ["Artistic", "Studious"], wealth := 5000, influence := 6 }
    wife := { nomen := "Fabia", cognomen := "Picta", birth := -292, traits := ["Cultured", "Pious"], wealth := 4800, influence := 5 }
    sons := [
      { praenomen := "Quintus", cognomen := "Pictor", birth := -268, traits := ["Creative"], wealth := 790, influence := 3 },
      { praenomen := "Marcus", cognomen := "Pictor", birth := -265, traits := ["Diligent"], wealth := 770, influence := 3 }]
    daughters := [
      { cognomen := "Picta", birth := -262, traits := ["Artistic"], wealth := 750, influence := 2 },
      { cognomen := "Picta", birth := -259, traits := ["Gentle"], wealth := 730, influence := 2 }]}

def fam_claudia_centho : Family :=
  { family := "Claudia"
    branch := "Centho"
    «class» := 0
    husband := { praenomen := "Gaius", cognomen := "Centho", birth := -287, traits := ["Charismatic", "Strategic"], wealth := 5200, influence := 7 }
    wife := { nomen := "Claudia", cognomen := "Centho", birth := -291, traits := ["Proud", "Insightful"], wealth := 5000, influence := 6 }
    sons := [
      { praenomen := "Appius", cognomen := "Centho", birth := -268, traits := ["Determined"], wealth := 820, influence := 3 },
      { praenomen := "Publius", cognomen := "Centho", birth := -265, traits := ["Diplomatic"], wealth := 800, influence := 3 }]
    daughters := [
      { cognomen := "Centho", birth := -262, traits := ["Elegant"], wealth := 780, influence := 2 },
      { cognomen := "Centho", birth := -259, traits := ["Gentle"], wealth := 760, influence := 2 }]}

def fam_curtius_philippus : Family :=
  { family := "Curtius"
    branch := "Philippus"
    «class» := 0
    husband := { praenomen := "Gaius", cognomen := "Philippus", birth := -286, traits := ["Astute", "Calm"], wealth := 5100, influence := 6 }
    wife := { nomen := "Curtia", cognomen := "Philippa", birth := -290, traits := ["Nurturing", "Wise"], wealth := 4900, influence := 5 }
    sons := [
      { praenomen := "Lucius", cognomen := "Philippus", birth := -268, traits := ["Prudent"], wealth := 800, influence := 3 },
      { praenomen := "Marcus", cognomen := "Philippus", birth := -265, traits := ["Confident"], wealth := 780, influence := 3 }]
    daughters := [
      { cognomen := "Philippa", birth := -262, traits := ["Gentle"], wealth := 760, influence := 2 },
      { cognomen := "Philippa", birth := -259, traits := ["Curious"], wealth := 740, influence := 2 }]}

def fam_curtius_rufinus : Family :=
  { family := "Curtius"
    branch := "Rufinus"
    «class» := 0
    husband := { praenomen := "Marcus", cognomen := "Rufinus", birth := -288, traits := ["Resolute", "Courageous"], wealth := 5000, influence := 6 }
    wife := { nomen := "Curtia", cognomen := "Rufina", birth := -292, traits := ["Pious", "Kind"], wealth := 4800, influence := 5 }
    sons := [
      { praenomen := "Gaius", cognomen := "Rufinus", birth := -269, traits := ["Bold"], wealth := 790, influence := 3 },
      { praenomen := "Lucius", cognomen := "Rufinus", birth := -266, traits := ["Steady"], wealth := 770, influence := 3 }]
    daughters := [
      { cognomen := "Rufina", birth := -263, traits := ["Attentive"], wealth := 750, influence := 2 },
      { cognomen := "Rufina", birth := -260, traits := ["Cheerful"], wealth := 730, influence := 2 }]}

def fam_trebonius_varro : Family :=
  { family := "Trebonius"
    branch := "Varro"
    «class» := 2
    husband := { praenomen := "Gaius", cognomen := "Varro", birth := -282, traits := ["Organized", "Patient"], wealth := 3100, influence := 4 }
    wife := { nomen := "Trebonia", cognomen := "Varra", birth := -286, traits := ["Kind", "Devout"], wealth := 2900, influence := 3 }
    sons := [
      { praenomen := "Lucius", cognomen := "Varro", birth := -267, traits := ["Curious"], wealth := 520, influence := 2 },
      { praenomen := "Marcus", cognomen := "Varro", birth := -264, traits := ["Determined"], wealth := 500, influence := 2 }]
    daughters := [
      { cognomen := "Varra", birth := -261, traits := ["Cheerful"], wealth := 480, influence := 1 },
      { cognomen := "Varra", birth := -258, traits := ["Gentle"], wealth := 460, influence := 1 }]}

def fam_plautia_plautius : Family :=
  { family := "Plautia"
    branch := "Plautius"
    «class» := 1
    husband := { praenomen := "Aulus", cognomen := "Plautius", birth := -284, traits := ["Decisive", "Cautious"], wealth := 3700, influence := 5 }
    wife := { nomen := "Plautia", cognomen := "Plautina", birth := -288, traits := ["Devout", "Patient"], wealth := 3500, influence := 4 }
    sons := [
      { praenomen := "Quintus", cognomen := "Plautius", birth := -268, traits := ["Steady"], wealth := 600, influence := 3 },
      { praenomen := "Lucius", cognomen := "Plautius", birth := -265, traits := ["Calm"], wealth := 580, influence := 3 }]
    daughters := [
      { cognomen := "Plautina", birth := -262, traits := ["Kind"], wealth := 560, influence := 2 },
      { cognomen := "Plautina", birth := -259, traits := ["Cheerful"], wealth := 540, influence := 2 }]}

def fam_decius_mus : Family :=
  { family := "Decius"
    branch := "Mus"
    «class» := 1
    husband := { praenomen := "Publius", cognomen := "Mus", birth := -285, traits := ["Courageous", "Devout"], wealth := 3800, influence := 5 }
    wife := { nomen := "Decia", cognomen := "Musa", birth := -289, traits := ["Compassionate", "Pious"], wealth := 3600, influence := 4 }
    sons := [
      { praenomen := "Quintus", cognomen := "Mus", birth := -268, traits := ["Brave"], wealth := 610, influence := 3 },
      { praenomen := "Publius", cognomen := "Mus", birth := -265, traits := ["Disciplined"], wealth := 590, influence := 3 }]
    daughters := [
      { cognomen := "Musa", birth := -262, traits := ["Kind"], wealth := 570, influence := 2 },
      { cognomen := "Musa", birth := -259, traits := ["Curious"], wealth := 550, influence := 2 }]}

def fam_cornelius_cethegus : Family :=
  { family := "Cornelius"
    branch := "Cethegus"
    «class» := 0
    husband := { praenomen := "Gaius", cognomen := "Cethegus", birth := -286, traits := ["Astute", "Eloquent"], wealth := 5300, influence := 7 }
    wife := { nomen := "Cornelia", cognomen := "Cethega", birth := -291, traits := ["Diplomatic", "Pious"], wealth := 5100, influence := 6 }
    sons := [
      { praenomen := "Marcus", cognomen := "Cethegus", birth := -268, traits := ["Persuasive"], wealth := 820, influence := 3 },
      { praenomen := "Lucius", cognomen := "Cethegus", birth := -265, traits := ["Steady"], wealth := 800, influence := 3 }]
    daughters := [
      { cognomen := "Cethega", birth := -262, traits := ["Graceful"], wealth := 780, influence := 2 },
      { cognomen := "Cethega", birth := -259, traits := ["Insightful"], wealth := 760, influence := 2 }]}

def fam_sicinius_dentatus : Family :=
  { family := "Sicinius"
    branch := "Dentatus"
    «class» := 2
    husband := { praenomen := "Lucius", cognomen := "Dentatus", birth := -282, traits := ["Resolute", "Hardy"], wealth := 3200, influence := 4 }
    wife := { nomen := "Sicinia", cognomen := "Dentata", birth := -286, traits := ["Practical", "Kind"], wealth := 3000, influence := 3 }
    sons := [
      { praenomen := "Marcus", cognomen := "Dentatus", birth := -267, traits := ["Energetic"], wealth := 540, influence := 2 },
      { praenomen := "Publius", cognomen := "Dentatus", birth := -264, traits := ["Sturdy"], wealth := 520, influence := 2 }]
    daughters := [
      { cognomen := "Dentata", birth := -261, traits := ["Warm"], wealth := 500, influence := 1 },
      { cognomen := "Dentata", birth := -258, traits := ["Cheerful"], wealth := 480, influence := 1 }]}

def fam_sestius_capitolinus : Family :=
  { family := "Sestius"
    branch := "Capitolinus"
    «class» := 1
    husband := { praenomen := "Publius", cognomen := "Capitolinus", birth := -284, traits := ["Dignified", "Resolute"], wealth := 3700, influence := 5 }
    wife := { nomen := "Sestia", cognomen := "Capitolina", birth := -288, traits := ["Pious", "Cultured"], wealth := 3500, influence := 4 }
    sons := [
      { praenomen := "Lucius", cognomen := "Capitolinus", birth := -268, traits := ["Calm"], wealth := 600, influence := 3 },
      { praenomen := "Gaius", cognomen := "Capitolinus", birth := -265, traits := ["Astute"], wealth := 580, influence := 3 }]
    daughters := [
      { cognomen := "Capitolina", birth := -262, traits := ["Gentle"], wealth := 560, influence := 2 },
      { cognomen := "Capitolina", birth := -259, traits := ["Diligent"], wealth := 540, influence := 2 }]}

def fam_verginius_tricostus : Family :=
  { family := "Verginius"
    branch := "Tricostus"
    «class» := 1
    husband := { praenomen := "Aulus", cognomen := "Tricostus", birth := -285, traits := ["Resolute", "Cautious"], wealth := 3600, influence := 5 }
    wife := { nomen := "Verginia", cognomen := "Tricosta", birth := -289, traits := ["Kind", "Pious"], wealth := 3400, influence := 4 }
    sons := [
      { praenomen := "Lucius", cognomen := "Tricostus", birth := -268, traits := ["Steady"], wealth := 590, influence := 3 },
      { praenomen := "Titus", cognomen := "Tricostus", birth := -265, traits := ["Alert"], wealth := 570, influence := 3 }]
    daughters := [
      { cognomen := "Tricosta", birth := -262, traits := ["Gentle"], wealth := 550, influence := 2 },
      { cognomen := "Tricosta", birth := -259, traits := ["Cheerful"], wealth := 530, influence := 2 }]}

def fam_atilius_regulus : Family :=
  { family := "Atilius"
    branch := "Regulus"
    «class» := 1
    husband := { praenomen := "Marcus", cognomen := "Regulus", birth := -284, traits := ["Bold", "Resilient"], wealth := 3750, influence := 5 }
    wife := { nomen := "Atilia", cognomen := "Regula", birth := -288, traits := ["Devout", "Steadfast"], wealth := 3550, influence := 4 }
    sons := [
      { praenomen := "Gaius", cognomen := "Regulus", birth := -267, traits := ["Energetic"], wealth := 600, influence := 3 },
      { praenomen := "Marcus", cognomen := "Regulus", birth := -264, traits := ["Determined"], wealth := 580, influence := 3 }]
    daughters := [
      { cognomen := "Regula", birth := -261, traits := ["Pious"], wealth := 560, influence := 2 },
      { cognomen := "Regula", birth := -258, traits := ["Gentle"], wealth := 540, influence := 2 }]}

def families : List Family := [
  fam_cornelius_scipio,
  fam_aemilius_paullus,
  fam_fabius_maximus,
  fam_claudius_pulcher,
  fam_valerius_laevinus,
  fam_julius_iulus,
  fam_sempronius_blesus,
  fam_fulvius_flaccus,
  fam_caecilius_metellus,
  fam_manlius_vulso,
  fam_sergius_silus,
  fam_sulpicius_galba,
  fam_postumius_albinus,
  fam_papirius_cursor,
  fam_calpurnius_piso,
  fam_marcius_rutilus,
  fam_livius_salinator,
  fam_licinius_crassus,
  fam_antonius_merenda,
  fam_plautius_hypsaeus,
  fam_mucius_scaevola,
  fam_tullius_rufus,
  fam_hostilius_mancinus,
  fam_furius_camillus,
  fam_atilius_calatinus,
  fam_ogulnius_gallus,
  fam_minucius_thermus,
  fam_quinctilius_varus,
  fam_cornelius_lentulus,
  fam_aemilius_barbula,
  fam_fabia_picta,
  fam_claudia_centho,
  fam_curtius_philippus,
  fam_curtius_rufinus,
  fam_trebonius_varro,
  fam_plautia_plautius,
  fam_decius_mus,
  fam_cornelius_cethegus,
  fam_sicinius_dentatus,
  fam_sestius_capitolinus,
  fam_verginius_tricostus,
  fam_atilius_regulus]

/-! Identifier layout lemmas. -/

theorem sonsRecords_map_ID (f : Family) (fid mid : Nat) (ss : List PersonT) :
    ∀ n, (sonsRecords f fid mid n ss).map (fun r => r.ID) = List.range' n ss.length := by
  induction ss with
  | nil => intro n; rfl
  | cons s ss ih =>
      intro n
      simp [sonsRecords, sonRecord, add_character, List.range'_succ, ih]

theorem daughtersRecords_map_ID (f : Family) (fid mid : Nat) (ds : List DaughterT) :
    ∀ n, (daughtersRecords f fid mid n ds).map (fun r => r.ID) = List.range' n ds.length := by
  induction ds with
  | nil => intro n; rfl
  | cons d ds ih =>
      intro n
      simp [daughtersRecords, daughterRecord, add_character, List.range'_succ, ih]

theorem buildFamilyRecords_map_ID (n : Nat) (f : Family) :
    (buildFamilyRecords n f).map (fun r => r.ID) = List.range' n (familySize f) := by
  have h2 : familySize f = f.sons.length + f.daughters.length + 1 + 1 := by
    simp [familySize]; omega
  rw [h2, List.range'_succ, List.range'_succ]
  simp [buildFamilyRecords, husbandFinal, wifeFinal, husbandRecord, wifeRecord,
    add_character, sonsRecords_map_ID, daughtersRecords_map_ID]
  omega

theorem processFamilies_map_ID (fams : List Family) :
    ∀ n, (processFamilies n fams).map (fun r => r.ID) = List.range' n (sizeSum fams) := by
  induction fams with
  | nil => intro n; rfl
  | cons f fs ih =>
      intro n
      simp [processFamilies, sizeSum, buildFamilyRecords_map_ID, ih]
      omega

theorem processFamilies_append (xs ys : List Family) :
    ∀ n, processFamilies n (xs ++ ys) =
      processFamilies n xs ++ processFamilies (n + sizeSum xs) ys := by
  induction xs with
  | nil => intro n; simp [processFamilies, sizeSum]
  | cons x xs ih =>
      intro n
      simp [processFamilies, sizeSum, ih, Nat.add_assoc]

theorem mem_processFamilies_ID_bounds {r : CharacterRecord} {n : Nat}
    {fams : List Family} (h : r ∈ processFamilies n fams) :
    n ≤ r.ID ∧ r.ID < n + sizeSum fams := by
  have hm : r.ID ∈ (processFamilies n fams).map (fun r => r.ID) :=
    List.mem_map_of_mem _ h
  rw [processFamilies_map_ID] at hm
  simpa using hm

/-! Field characterization of the records each loop produces. -/

theorem mem_sonsRecords {f : Family} {fid mid : Nat} {r : CharacterRecord} :
    ∀ {n : Nat} {ss : List PersonT}, r ∈ sonsRecords f fid mid n ss →
      r.Gender = 0 ∧ r.RomanName.Nomen = f.family ∧ r.SpouseID = none ∧
        r.FatherID = some fid ∧ r.MotherID = some mid ∧ r.SiblingID = none ∧
        r.Age = START_YEAR - r.BirthYear ∧ r.IsAlive = true ∧
        n ≤ r.ID ∧ r.ID < n + ss.length := by
  intro n ss
  induction ss generalizing n with
  | nil => intro h; cases h
  | cons s ss ih =>
      intro h
      rcases List.mem_cons.mp h with h | h
      · subst h
        refine ⟨rfl, rfl, rfl, rfl, rfl, rfl, rfl, rfl, Nat.le_refl _, ?_⟩
        simp only [sonRecord, add_character, List.length_cons]
        omega
      · obtain ⟨g, nm, sp, fa, mo, si, ag, al, lb, ub⟩ := ih h
        refine ⟨g, nm, sp, fa, mo, si, ag, al, by omega, ?_⟩
        simp only [List.length_cons]
        omega

theorem mem_daughtersRecords {f : Family} {fid mid : Nat} {r : CharacterRecord} :
    ∀ {n : Nat} {ds : List DaughterT}, r ∈ daughtersRecords f fid mid n ds →
      r.Gender = 1 ∧ r.RomanName.Nomen = f.wife.nomen ∧
        r.RomanName.Praenomen = none ∧ r.SpouseID = none ∧
        r.FatherID = some fid ∧ r.MotherID = some mid ∧ r.SiblingID = none ∧
        r.Age = START_YEAR - r.BirthYear ∧ r.IsAlive = true ∧
        n ≤ r.ID ∧ r.ID < n + ds.length := by
  intro n ds
  induction ds generalizing n with
  | nil => intro h; cases h
  | cons d ds ih =>
      intro h
      rcases List.mem_cons.mp h with h | h
      · subst h
        refine ⟨rfl, rfl, rfl, rfl, rfl, rfl, rfl, rfl, rfl, Nat.le_refl _, ?_⟩
        simp only [daughterRecord, add_character, List.length_cons]
        omega
      · obtain ⟨g, nm, pr, sp, fa, mo, si, ag, al, lb, ub⟩ := ih h
        refine ⟨g, nm, pr, sp, fa, mo, si, ag, al, by omega, ?_⟩
        simp only [List.length_cons]
        omega

/-- Full role analysis of one family block starting at id `n`: a record is
the (patched) husband, the (patched) wife, a son, or a daughter, with the
role determined by where its id falls. -/
theorem mem_buildFamilyRecords {r : CharacterRecord} {n : Nat} {f : Family}
    (h : r ∈ buildFamilyRecords n f) :
    (r.ID = n ∧ r.Gender = 0 ∧ r.SpouseID = some (n + 1) ∧ r.FatherID = none ∧
        r.MotherID = none ∧ r.RomanName = husband_name f) ∨
      (r.ID = n + 1 ∧ r.Gender = 1 ∧ r.SpouseID = some n ∧ r.FatherID = none ∧
        r.MotherID = none ∧ r.RomanName = wife_name f) ∨
      (n + 2 ≤ r.ID ∧ r.ID < n + 2 + f.sons.length ∧ r.Gender = 0 ∧
        r.SpouseID = none ∧ r.FatherID = some n ∧ r.MotherID = some (n + 1) ∧
        r.RomanName.Nomen = f.family) ∨
      (n + 2 + f.sons.length ≤ r.ID ∧ r.ID < n + familySize f ∧ r.Gender = 1 ∧
        r.SpouseID = none ∧ r.FatherID = some n ∧ r.MotherID = some (n + 1) ∧
        r.RomanName.Nomen = f.wife.nomen ∧ r.RomanName.Praenomen = none) := by
  rcases List.mem_cons.mp h with hh | h2
  · exact Or.inl (by subst hh; exact ⟨rfl, rfl, rfl, rfl, rfl, rfl⟩)
  rcases List.mem_cons.mp h2 with hw | h3
  · exact Or.inr (Or.inl (by subst hw; exact ⟨rfl, rfl, rfl, rfl, rfl, rfl⟩))
  rcases List.mem_append.mp h3 with hs | hd
  · obtain ⟨g, nm, sp, fa, mo, _, _, _, lb, ub⟩ := mem_sonsRecords hs
    exact Or.inr (Or.inr (Or.inl ⟨lb, ub, g, sp, fa, mo, nm⟩))
  · obtain ⟨g, nm, pr, sp, fa, mo, _, _, _, lb, ub⟩ := mem_daughtersRecords hd
    refine Or.inr (Or.inr (Or.inr ⟨?_, ?_, g, sp, fa, mo, nm, pr⟩))
    · omega
    · simp only [familySize]
      omega

/-- Facts shared by every record of a family block. -/
theorem mem_buildFamilyRecords_common {r : CharacterRecord} {n : Nat}
    {f : Family} (h : r ∈ buildFamilyRecords n f) :
    r.SiblingID = none ∧ r.Age = START_YEAR - r.BirthYear ∧ r.IsAlive = true := by
  rcases List.mem_cons.mp h with hh | h2
  · subst hh; exact ⟨rfl, rfl, rfl⟩
  rcases List.mem_cons.mp h2 with hw | h3
  · subst hw; exact ⟨rfl, rfl, rfl⟩
  rcases List.mem_append.mp h3 with hs | hd
  · obtain ⟨_, _, _, _, _, si, ag, al, _, _⟩ := mem_sonsRecords hs
    exact ⟨si, ag, al⟩
  · obtain ⟨_, _, _, _, _, _, si, ag, al, _, _⟩ := mem_daughtersRecords hd
    exact ⟨si, ag, al⟩

/-- Facts shared by every record of the whole output. -/
theorem mem_processFamilies_common {r : CharacterRecord} {fams : List Family} :
    ∀ {n : Nat}, r ∈ processFamilies n fams →
      r.SiblingID = none ∧ r.Age = START_YEAR - r.BirthYear ∧ r.IsAlive = true := by
  induction fams with
  | nil => intro n h; cases h
  | cons f fs ih =>
      intro n h
      rcases List.mem_append.mp h with h | h
      · exact mem_buildFamilyRecords_common h
      · exact ih h

/-- Any populated `SpouseID` in a block of families points into that block. -/
theorem mem_processFamilies_spouse_bound {r : CharacterRecord}
    {fams : List Family} :
    ∀ {n : Nat}, r ∈ processFamilies n fams → ∀ s, r.SpouseID = some s →
      n ≤ s ∧ s < n + sizeSum fams := by
  induction fams with
  | nil => intro n h; cases h
  | cons f fs ih =>
      intro n h s hs
      rcases List.mem_append.mp h with h | h
      · rcases mem_buildFamilyRecords h with
          ⟨_, _, sp, _⟩ | ⟨_, _, sp, _⟩ | ⟨_, _, _, sp, _⟩ | ⟨_, _, _, sp, _⟩ <;>
          rw [sp] at hs
        · cases hs
          simp only [sizeSum, familySize]
          omega
        · cases hs
          simp only [sizeSum, familySize]
          omega
        · cases hs
        · cases hs
      · have := ih h s hs
        simp only [sizeSum]
        omega

/-- A female record anywhere in the output has a null praenomen. -/
theorem mem_processFamilies_female {r : CharacterRecord} {fams : List Family} :
    ∀ {n : Nat}, r ∈ processFamilies n fams → r.Gender = 1 →
      r.RomanName.Praenomen = none := by
  induction fams with
  | nil => intro n h; cases h
  | cons f fs ih =>
      intro n h hg
      rcases List.mem_append.mp h with h | h
      · rcases mem_buildFamilyRecords h with
          ⟨_, g, _, _, _, nm⟩ | ⟨_, g, _, _, _, nm⟩ |
          ⟨_, _, g, _, _, _, _⟩ | ⟨_, _, g, _, _, _, _, pr⟩
        · rw [g] at hg; cases hg
        · rw [nm]; rfl
        · rw [g] at hg; cases hg
        · exact pr
      · exact ih h hg

/-- Under the fixed 2-sons/2-daughters shape, each family contributes 6. -/
theorem sizeSum_eq_six_mul (fams : List Family)
    (h : ∀ f ∈ fams, f.sons.length = 2 ∧ f.daughters.length = 2) :
    sizeSum fams = 6 * fams.length := by
  induction fams with
  | nil => rfl
  | cons f fs ih =>
      have hf := h f (List.mem_cons_self f fs)
      have hrest := ih (fun g hg => h g (List.mem_cons_of_mem f hg))
      simp only [sizeSum, familySize, hf.1, hf.2, hrest, List.length_cons]
      omega

/-! Claim theorems. -/

/-- Claim C1: over any run of the build whose input families each carry 2
sons and 2 daughters (as every template in the list does), the `ID` values
of the output records are exactly the integers `1..N` with
`N = 6 * (number of families)`, in creation order (husband, wife, sons in
listed order, daughters in listed order, family after family), hence
strictly increasing with no gaps or duplicates. -/
theorem claim1_ids_exactly_one_to_N (fams : List Family)
    (h : ∀ f ∈ fams, f.sons.length = 2 ∧ f.daughters.length = 2) :
    (generate_characters fams).map (fun r => r.ID) =
      List.range' 1 (6 * fams.length) := by
  rw [generate_characters, processFamilies_map_ID, sizeSum_eq_six_mul fams h]

/-- Claim C1 witness: the theorem applied to the script's own 42-family
list, whose id sequence is therefore `1..252`. -/
theorem claim1_ids_witness :
    (∀ f ∈ families, f.sons.length = 2 ∧ f.daughters.length = 2) ∧
      (generate_characters families).map (fun r => r.ID) =
        List.range' 1 (6 * families.length) :=
  ⟨by decide, claim1_ids_exactly_one_to_N families (by decide)⟩

/-- Claim C4: every output record's `Age` is the reference year `-248`
minus its birth year, in exact signed integer arithmetic. -/
theorem claim4_age_formula (fams : List Family) (r : CharacterRecord)
    (h : r ∈ generate_characters fams) : r.Age = START_YEAR - r.BirthYear :=
  (mem_processFamilies_common h).2.1

/-- Claim C4 witness: the first record of the build over the first family
template is the husband born `-285`, and the theorem applied there gives
`Age = -248 - (-285) = 37`. -/
theorem claim4_age_witness :
    husbandFinal 1 fam_cornelius_scipio ∈
        generate_characters [fam_cornelius_scipio] ∧
      (husbandFinal 1 fam_cornelius_scipio).BirthYear = -285 ∧
      (husbandFinal 1 fam_cornelius_scipio).Age =
        START_YEAR - (husbandFinal 1 fam_cornelius_scipio).BirthYear ∧
      (husbandFinal 1 fam_cornelius_scipio).Age = 37 :=
  ⟨List.mem_cons_self _ _, rfl,
    claim4_age_formula [fam_cornelius_scipio] _ (List.mem_cons_self _ _), rfl⟩

/-- Claim C6: the build is a deterministic function of its input: two runs
over equal template lists produce equal documents, and hence equal
serialized JSON. -/
theorem claim6_deterministic (fams1 fams2 : List Family)
    (h : fams1 = fams2) :
    build_output fams1 = build_output fams2 ∧
      OutputDoc.toJson (build_output fams1) =
        OutputDoc.toJson (build_output fams2) := by
  subst h
  exact ⟨rfl, rfl⟩

/-- Claim C6 witness: two runs over the script's own family list. -/
theorem claim6_deterministic_witness :
    build_output families = build_output families ∧
      OutputDoc.toJson (build_output families) =
        OutputDoc.toJson (build_output families) :=
  claim6_deterministic families families rfl

/-- Claim C8: no operation of the build ever populates `SiblingID`; it is
null on every output record. -/
theorem claim8_sibling_id_null (fams : List Family) (r : CharacterRecord)
    (h : r ∈ generate_characters fams) : r.SiblingID = none :=
  (mem_processFamilies_common h).1

/-- Claim C8 witness: the theorem applied to a concrete record of the build
over the first family template. -/
theorem claim8_sibling_witness :
    wifeFinal 1 fam_cornelius_scipio ∈ generate_characters [fam_cornelius_scipio] ∧
      (wifeFinal 1 fam_cornelius_scipio).SiblingID = none :=
  ⟨List.mem_cons_of_mem _ (List.mem_cons_self _ _),
    claim8_sibling_id_null [fam_cornelius_scipio] _
      (List.mem_cons_of_mem _ (List.mem_cons_self _ _))⟩

/-- Claim C10: for any input whose families each carry a husband and wife
template and arbitrary (possibly empty) sons and daughters lists, the build
produces `2 + sons + daughters` records per family, summed over the list;
zero families yield the empty record list with no error. -/
theorem claim10_record_count (fams : List Family) :
    (generate_characters fams).length =
        (fams.map (fun f => 2 + f.sons.length + f.daughters.length)).sum ∧
      generate_characters [] = [] := by
  constructor
  · have hlen : (generate_characters fams).length =
        ((generate_characters fams).map (fun r => r.ID)).length := by
      rw [List.length_map]
    rw [hlen, generate_characters, processFamilies_map_ID, List.length_range']
    induction fams with
    | nil => rfl
    | cons f fs ih => simp [sizeSum, familySize, ih]
  · rfl

/-- Splitting the build at one family: the records before it, its own
block starting at id `1 + sizeSum fs1`, and the records after it. -/
theorem generate_characters_split (fs1 fs2 : List Family) (f : Family) :
    generate_characters (fs1 ++ f :: fs2) =
      processFamilies 1 fs1 ++
        (buildFamilyRecords (1 + sizeSum fs1) f ++
          processFamilies (1 + sizeSum fs1 + familySize f) fs2) := by
  rw [generate_characters, processFamilies_append]
  rfl

/-- Claim C2: in every family (the one at position `fs1.length` of the
split input, whose block starts at id `n = 1 + sizeSum fs1`) the husband
record's `SpouseID` is the wife's id `n + 1` and the wife record's
`SpouseID` is the husband's id `n` — set only after both records exist —
and any record anywhere in the output whose `SpouseID` is one of those two
ids is that husband or that wife itself. -/
theorem claim2_spouse_reciprocal_exclusive (fams fs1 fs2 : List Family)
    (f : Family) (hsplit : fams = fs1 ++ f :: fs2) :
    (∃ hrec ∈ generate_characters fams, ∃ wrec ∈ generate_characters fams,
        hrec.ID = 1 + sizeSum fs1 ∧ wrec.ID = 1 + sizeSum fs1 + 1 ∧
        hrec.SpouseID = some wrec.ID ∧ wrec.SpouseID = some hrec.ID) ∧
      ∀ r ∈ generate_characters fams, ∀ s, r.SpouseID = some s →
        s = 1 + sizeSum fs1 ∨ s = 1 + sizeSum fs1 + 1 →
        r.ID = 1 + sizeSum fs1 ∨ r.ID = 1 + sizeSum fs1 + 1 := by
  subst hsplit
  rw [generate_characters_split]
  constructor
  · refine ⟨husbandFinal (1 + sizeSum fs1) f, ?_,
      wifeFinal (1 + sizeSum fs1) f, ?_, rfl, rfl, rfl, rfl⟩
    · exact List.mem_append_right _ (List.mem_append_left _
        (List.mem_cons_self _ _))
    · exact List.mem_append_right _ (List.mem_append_left _
        (List.mem_cons_of_mem _ (List.mem_cons_self _ _)))
  · intro r hr s hs hor
    rcases List.mem_append.mp hr with hpre | hrest
    · have hb := mem_processFamilies_spouse_bound hpre s hs
      omega
    rcases List.mem_append.mp hrest with hmid | hsuf
    · rcases mem_buildFamilyRecords hmid with
        ⟨hid, _⟩ | ⟨hid, _⟩ | ⟨_, _, _, sp, _⟩ | ⟨_, _, _, sp, _⟩
      · exact Or.inl hid
      · exact Or.inr hid
      · rw [sp] at hs; cases hs
      · rw [sp] at hs; cases hs
    · have hb := mem_processFamilies_spouse_bound hsuf s hs
      have hsz : 2 ≤ familySize f := by
        simp only [familySize]
        omega
      omega

/-- Claim C2 witness: the theorem applied to the script's family list split
at its second family (`fam_aemilius_paullus`, block starting at id 7). -/
theorem claim2_spouse_witness :
    (∃ hrec ∈ generate_characters families,
        ∃ wrec ∈ generate_characters families,
        hrec.ID = 1 + sizeSum [fam_cornelius_scipio] ∧
        wrec.ID = 1 + sizeSum [fam_cornelius_scipio] + 1 ∧
        hrec.SpouseID = some wrec.ID ∧ wrec.SpouseID = some hrec.ID) ∧
      ∀ r ∈ generate_characters families, ∀ s, r.SpouseID = some s →
        s = 1 + sizeSum [fam_cornelius_scipio] ∨
          s = 1 + sizeSum [fam_cornelius_scipio] + 1 →
        r.ID = 1 + sizeSum [fam_cornelius_scipio] ∨
          r.ID = 1 + sizeSum [fam_cornelius_scipio] + 1 :=
  claim2_spouse_reciprocal_exclusive families [fam_cornelius_scipio] _
    fam_aemilius_paullus rfl

/-- Claim C3: every record of a family block (start id `n = 1 + sizeSum
fs1`) other than the two parents — i.e. every son and daughter record —
carries `FatherID = some n`, the husband's id, and `MotherID = some (n+1)`,
the wife's id, of that same family; since each record's id lies in exactly
one family's block, these keys never reference another family. -/
theorem claim3_children_foreign_keys (fams fs1 fs2 : List Family)
    (f : Family) (hsplit : fams = fs1 ++ f :: fs2) :
    ∀ r ∈ generate_characters fams,
      1 + sizeSum fs1 + 2 ≤ r.ID → r.ID < 1 + sizeSum fs1 + familySize f →
      r.FatherID = some (1 + sizeSum fs1) ∧
        r.MotherID = some (1 + sizeSum fs1 + 1) := by
  subst hsplit
  rw [generate_characters_split]
  intro r hr hlb hub
  rcases List.mem_append.mp hr with hpre | hrest
  · have hb := mem_processFamilies_ID_bounds hpre
    omega
  rcases List.mem_append.mp hrest with hmid | hsuf
  · rcases mem_buildFamilyRecords hmid with
      ⟨hid, _⟩ | ⟨hid, _⟩ | ⟨_, _, _, _, fa, mo, _⟩ | ⟨_, _, _, _, fa, mo, _⟩
    · omega
    · omega
    · exact ⟨fa, mo⟩
    · exact ⟨fa, mo⟩
  · have hb := mem_processFamilies_ID_bounds hsuf
    omega

/-- Claim C3 witness: the theorem applied to the script's family list split
at its first family, evaluated at the first son record (id 3). -/
theorem claim3_children_witness :
    sonRecord 3 fam_cornelius_scipio 1 2
        { praenomen := "Gnaeus", cognomen := "Scipio", birth := -268,
          traits := ["Disciplined"], wealth := 900, influence := 3 } ∈
        generate_characters families ∧
      (sonRecord 3 fam_cornelius_scipio 1 2
          { praenomen := "Gnaeus", cognomen := "Scipio", birth := -268,
            traits := ["Disciplined"], wealth := 900, influence := 3 }).FatherID =
        some (1 + sizeSum ([] : List Family)) ∧
      (sonRecord 3 fam_cornelius_scipio 1 2
          { praenomen := "Gnaeus", cognomen := "Scipio", birth := -268,
            traits := ["Disciplined"], wealth := 900, influence := 3 }).MotherID =
        some (1 + sizeSum ([] : List Family) + 1) := by
  have hmem : sonRecord 3 fam_cornelius_scipio 1 2
      { praenomen := "Gnaeus", cognomen := "Scipio", birth := -268,
        traits := ["Disciplined"], wealth := 900, influence := 3 } ∈
      generate_characters families := by decide
  have h := claim3_children_foreign_keys families [] _ fam_cornelius_scipio rfl
    _ hmem (by decide) (by decide)
  exact ⟨hmem, h.1, h.2⟩

/-- Claim C7: every female record of any build (wife or daughter) has a
null praenomen; and within each family block (start id `n = 1 + sizeSum
fs1`) every male record — husband or son — has the family nomen as its
name's `Nomen`, while every female record — wife or daughter — has the
wife template's recorded `nomen` field (for the daughters this is the
mother's recorded nomen, not necessarily the family's display nomen). -/
theorem claim7_female_praenomen_and_nomen :
    (∀ (fams : List Family), ∀ r ∈ generate_characters fams,
        r.Gender = 1 → r.RomanName.Praenomen = none) ∧
      ∀ (fams fs1 fs2 : List Family) (f : Family), fams = fs1 ++ f :: fs2 →
        ∀ r ∈ generate_characters fams,
          1 + sizeSum fs1 ≤ r.ID → r.ID < 1 + sizeSum fs1 + familySize f →
          (r.Gender = 0 → r.RomanName.Nomen = f.family) ∧
            (r.Gender = 1 → r.RomanName.Nomen = f.wife.nomen) := by
  constructor
  · intro fams r hr hg
    exact mem_processFamilies_female hr hg
  · intro fams fs1 fs2 f hsplit r hr hlb hub
    subst hsplit
    rw [generate_characters_split] at hr
    rcases List.mem_append.mp hr with hpre | hrest
    · have hb := mem_processFamilies_ID_bounds hpre
      omega
    rcases List.mem_append.mp hrest with hmid | hsuf
    · rcases mem_buildFamilyRecords hmid with
        ⟨_, g, _, _, _, nm⟩ | ⟨_, g, _, _, _, nm⟩ |
        ⟨_, _, g, _, _, _, nm⟩ | ⟨_, _, g, _, _, _, nm, _⟩
      · constructor
        · intro _; rw [nm]; rfl
        · intro hg; rw [g] at hg; cases hg
      · constructor
        · intro hg; rw [g] at hg; cases hg
        · intro _; rw [nm]; rfl
      · constructor
        · intro _; exact nm
        · intro hg; rw [g] at hg; cases hg
      · constructor
        · intro hg; rw [g] at hg; cases hg
        · intro _; exact nm
    · have hb := mem_processFamilies_ID_bounds hsuf
      omega

/-- Claim C7 witness: on the first family template the theorem gives the
wife record's null praenomen and the first daughter record's nomen, which
is the wife template's recorded `Cornelia`. -/
theorem claim7_nomen_witness :
    ((wifeFinal 1 fam_cornelius_scipio).Gender = 1 →
        (wifeFinal 1 fam_cornelius_scipio).RomanName.Praenomen = none) ∧
      (daughterRecord 5 fam_cornelius_scipio 1 2
            { cognomen := "Scipio", birth := -264, traits := ["Graceful"],
              wealth := 820, influence := 2 }).RomanName.Nomen = "Cornelia" := by
  constructor
  · intro hg
    exact claim7_female_praenomen_and_nomen.1 [fam_cornelius_scipio] _
      (List.mem_cons_of_mem _ (List.mem_cons_self _ _)) hg
  · have hmem : daughterRecord 5 fam_cornelius_scipio 1 2
        { cognomen := "Scipio", birth := -264, traits := ["Graceful"],
          wealth := 820, influence := 2 } ∈
        generate_characters [fam_cornelius_scipio] := by decide
    have h := (claim7_female_praenomen_and_nomen.2 [fam_cornelius_scipio] [] []
        fam_cornelius_scipio rfl _ hmem (by decide) (by decide)).2 rfl
    exact h

/-- If some family of the raw input is missing its `wife` entry, the whole
build aborts with an error before any output document exists. -/
theorem processFamiliesChecked_error (fams : List RawFamily)
    (h : ∃ f ∈ fams, f.wife = none) :
    ∀ n, ∃ e, processFamiliesChecked n fams = Except.error e := by
  induction fams with
  | nil =>
      obtain ⟨f, hf, _⟩ := h
      cases hf
  | cons g gs ih =>
      intro n
      cases hw : g.wife with
      | none => exact ⟨"KeyError: wife", by simp [processFamiliesChecked, hw]⟩
      | some w =>
          obtain ⟨f, hf, hfw⟩ := h
          rcases List.mem_cons.mp hf with hf | hf
          · subst hf
            rw [hw] at hfw
            cases hfw
          · obtain ⟨e, he⟩ := ih ⟨f, hf, hfw⟩
              (n + familySize (g.withWife w))
            exact ⟨e, by simp [processFamiliesChecked, hw, he]⟩

/-- Claim C5: a family template missing its `wife` entry makes the build
fail (the uncaught lookup error) rather than skip the family or emit
partial records: the run produces an error and no output document is
written. -/
theorem claim5_missing_wife_aborts (fams : List RawFamily)
    (h : ∃ f ∈ fams, f.wife = none) :
    ∃ e, generate_characters_checked fams = Except.error e := by
  obtain ⟨e, he⟩ := processFamiliesChecked_error fams h 1
  exact ⟨e, by simp [generate_characters_checked, he]⟩

/-- A raw copy of the first family template with the `wife` entry removed. -/
def fam_scipio_no_wife : RawFamily :=
  { family := "Cornelius"
    branch := "Scipio"
    «class» := 0
    husband := { praenomen := "Publius", cognomen := "Scipio Asina", birth := -285, traits := ["Naval", "Ambitious"], wealth := 5600, influence := 8 }
    wife := none
    sons := fam_cornelius_scipio.sons
    daughters := fam_cornelius_scipio.daughters }

/-- Claim C5 witness: the theorem applied to a one-family input whose
`wife` entry is missing. -/
theorem claim5_missing_wife_witness :
    (∃ f ∈ [fam_scipio_no_wife], f.wife = none) ∧
      ∃ e, generate_characters_checked [fam_scipio_no_wife] = Except.error e :=
  ⟨⟨fam_scipio_no_wife, List.mem_cons_self _ _, rfl⟩,
    claim5_missing_wife_aborts [fam_scipio_no_wife]
      ⟨fam_scipio_no_wife, List.mem_cons_self _ _, rfl⟩⟩

/-- Claim C9: the serialized output document has exactly one top-level
field, `Characters`, holding the record array, and every serialized record
carries exactly the seventeen field names of the source dict literal, in
its insertion order, with `RomanName` an object whose keys are `Praenomen`,
`Nomen`, `Cognomen`, `Gender` in that order. -/
theorem claim9_document_shape (fams : List Family) :
    ∃ l, OutputDoc.toJson (build_output fams) =
        JValue.jobj [("Characters", JValue.jarr l)] ∧
      ∀ v ∈ l, ∃ fields, v = JValue.jobj fields ∧
        fields.map Prod.fst =
          ["ID", "RomanName", "Gender", "BirthYear", "BirthMonth",
            "BirthDay", "Age", "IsAlive", "SpouseID", "FatherID", "MotherID",
            "SiblingID", "Family", "Class", "Traits", "Wealth", "Influence"] ∧
        ∃ nfields, ("RomanName", JValue.jobj nfields) ∈ fields ∧
          nfields.map Prod.fst = ["Praenomen", "Nomen", "Cognomen", "Gender"] := by
  refine ⟨(generate_characters fams).map CharacterRecord.toJson, rfl, ?_⟩
  intro v hv
  obtain ⟨r, _, hr⟩ := List.mem_map.mp hv
  subst hr
  refine ⟨_, rfl, rfl, ?_⟩
  exact ⟨[("Praenomen", jsonOfOptStr r.RomanName.Praenomen),
      ("Nomen", JValue.jstr r.RomanName.Nomen),
      ("Cognomen", JValue.jstr r.RomanName.Cognomen),
      ("Gender", JValue.jint r.RomanName.Gender)],
    List.mem_cons_of_mem _ (List.mem_cons_self _ _), rfl⟩

/-- Claim C9 witness: the theorem applied to the script's own family
list. -/
theorem claim9_document_witness :
    ∃ l, OutputDoc.toJson (build_output families) =
        JValue.jobj [("Characters", JValue.jarr l)] ∧
      ∀ v ∈ l, ∃ fields, v = JValue.jobj fields ∧
        fields.map Prod.fst =
          ["ID", "RomanName", "Gender", "BirthYear", "BirthMonth",
            "BirthDay", "Age", "IsAlive", "SpouseID", "FatherID", "MotherID",
            "SiblingID", "Family", "Class", "Traits", "Wealth", "Influence"] ∧
        ∃ nfields, ("RomanName", JValue.jobj nfields) ∈ fields ∧
          nfields.map Prod.fst = ["Praenomen", "Nomen", "Cognomen", "Gender"] :=
  claim9_document_shape families

/-- Claim C10 witness: the theorem applied to the script's own family
list: 42 families, each with 2 sons and 2 daughters, give 252 records. -/
theorem claim10_record_count_witness :
    (generate_characters families).length =
        (families.map (fun f => 2 + f.sons.length + f.daughters.length)).sum ∧
      generate_characters [] = [] :=
  claim10_record_count families

end CursusHonorum
